import Mathlib

/-
Verification of the port-io-manager reconciliation core.

The Python sources are shallowly embedded: JSON/YAML documents become the
inductive `Json`, Python dict/list operations become assoc-list operations,
the remote gateway and the interactive prompt become explicit oracle inputs,
and each service function becomes a pure Lean function returning its outcome
together with the trace of gateway write calls it performed.
-/

namespace PortManager

/-- A JSON-like value: the documents handled by the tool.  Numbers are
modelled as integers (the timestamps and scalars the code manipulates);
objects are association lists in insertion order, as CPython dicts. -/
inductive Json where
  | null
  | bool (b : Bool)
  | num (n : Int)
  | str (s : String)
  | arr (xs : List Json)
  | obj (kvs : List (String × Json))
deriving Repr

mutual

/-- Structural equality of values (Boolean, kernel-evaluable). -/
def beqJson : Json → Json → Bool
  | .null, .null => true
  | .bool a, .bool b => a == b
  | .num a, .num b => a == b
  | .str a, .str b => a == b
  | .arr xs, .arr ys => beqList xs ys
  | .obj a, .obj b => beqKvs a b
  | _, _ => false

def beqList : List Json → List Json → Bool
  | [], [] => true
  | x :: xs, y :: ys => beqJson x y && beqList xs ys
  | _, _ => false

def beqKvs : List (String × Json) → List (String × Json) → Bool
  | [], [] => true
  | kv :: kvs, kw :: kws => (kv.1 == kw.1) && beqJson kv.2 kw.2 && beqKvs kvs kws
  | _, _ => false

end

instance : BEq Json := ⟨beqJson⟩

/-- Python `d.get(k)` / `d[k]` lookup on an object: the first binding with
the given key, `none` for a missing key or a non-object value. -/
def objGet (j : Json) (k : String) : Option Json :=
  match j with
  | .obj kvs => (kvs.find? (fun kv => kv.1 == k)).map (fun kv => kv.2)
  | _ => none

/-- Python `d.get(k, default)`. -/
def objGetD (j : Json) (k : String) (d : Json) : Json :=
  match objGet j k with
  | some v => v
  | none => d

/-- Python truthiness of a value (`if x:`). -/
def truthy : Json → Bool
  | .null => false
  | .bool b => b
  | .num n => n != 0
  | .str s => s != ""
  | .arr xs => !xs.isEmpty
  | .obj kvs => !kvs.isEmpty

/-- Truthiness of an optional value (Python `None` is falsy). -/
def truthyOpt : Option Json → Bool
  | some j => truthy j
  | none => false

/-- Python `d.pop(k, None)` / `del d[k]`: drop the binding for one key. -/
def popKey (j : Json) (k : String) : Json :=
  match j with
  | .obj kvs => .obj (kvs.filter (fun kv => kv.1 != k))
  | j => j

/-- Drop the bindings of several keys (a sequence of `pop` calls). -/
def popKeys (j : Json) (ks : List String) : Json :=
  ks.foldl popKey j

/-- Python `d[k] = v` for a key already present: replace the value in place,
keeping the position of the binding. -/
def setKey (j : Json) (k : String) (v : Json) : Json :=
  match j with
  | .obj kvs => .obj (kvs.map (fun kv => if kv.1 == k then (kv.1, v) else kv))
  | j => j

/-- Keys of an object, `[]` for non-objects. -/
def keysOf : Json → List String
  | .obj kvs => kvs.map (fun kv => kv.1)
  | _ => []

/-- Elements of an array, `[]` for non-arrays. -/
def asArr : Json → List Json
  | .arr xs => xs
  | _ => []

/-- Byte-wise lexicographic order on character lists, as a boolean. -/
def charListLe : List Char → List Char → Bool
  | [], _ => true
  | _ :: _, [] => false
  | a :: as, b :: bs =>
    if a.toNat < b.toNat then true
    else if b.toNat < a.toNat then false
    else charListLe as bs

/-- Lexicographic order on strings, as a boolean (used only to pick a
canonical ordering when normalising structures). -/
def strLeB (a b : String) : Bool :=
  charListLe a.toList b.toList

/-- Insertion into a list sorted by `le`. -/
def insertBy (le : α → α → Bool) (x : α) : List α → List α
  | [] => [x]
  | y :: ys => if le x y then x :: y :: ys else y :: insertBy le x ys

/-- Insertion sort by `le` (deterministic, kernel-evaluable). -/
def sortBy (le : α → α → Bool) : List α → List α
  | [] => []
  | x :: xs => insertBy le x (sortBy le xs)

mutual

/-- A canonical serialisation of a value, used as a sort key when
normalising arrays under order-insensitive comparison. -/
def ser : Json → String
  | .null => "n"
  | .bool b => if b then "t" else "f"
  | .num n => "i" ++ toString n
  | .str s => "s" ++ s
  | .arr xs => "a(" ++ serList xs ++ ")"
  | .obj kvs => "o(" ++ serKvs kvs ++ ")"

def serList : List Json → String
  | [] => ""
  | x :: xs => ser x ++ "," ++ serList xs

def serKvs : List (String × Json) → String
  | [] => ""
  | kv :: kvs => kv.1 ++ ":" ++ ser kv.2 ++ ";" ++ serKvs kvs

end

/-- First-binding-wins key deduplication (a dict never holds a key twice). -/
def dedupKeys (seen : List String) : List (String × Json) → List (String × Json)
  | [] => []
  | kv :: kvs =>
    if seen.contains kv.1 then dedupKeys seen kvs
    else kv :: dedupKeys (kv.1 :: seen) kvs

mutual

/-- Canonical form of a value under DeepDiff ignore_order semantics:
object bindings are deduplicated and sorted by key (a dict is its key-value
map, not an ordered record), and array elements are sorted by their
serialisation (order-insensitive membership). -/
def normalize : Json → Json
  | .null => .null
  | .bool b => .bool b
  | .num n => .num n
  | .str s => .str s
  | .arr xs => .arr (sortBy (fun a b => strLeB (ser a) (ser b)) (normList xs))
  | .obj kvs =>
    .obj (sortBy (fun a b => strLeB a.1 b.1) (dedupKeys [] (normKvs kvs)))

def normList : List Json → List Json
  | [] => []
  | x :: xs => normalize x :: normList xs

def normKvs : List (String × Json) → List (String × Json)
  | [] => []
  | kv :: kvs => (kv.1, normalize kv.2) :: normKvs kvs

end

/-- Emptiness of `DeepDiff(a, b, ignore_order=True)`: the diff is empty iff
the two structures are equivalent as key-value maps with order-insensitive
arrays. -/
def jsonEquiv (a b : Json) : Bool :=
  normalize a == normalize b

/-- Bindings of an object (`[]` for non-objects; only dict-shaped values
reach the dict operations below in the modelled code paths). -/
def objKvs : Json → List (String × Json)
  | .obj kvs => kvs
  | _ => []

/- ### api/exceptions.py and api/client.py: the typed API error -/

/-- `PortAPIError`, abstracted to its status code (the carried message and
response data only feed logging in the modelled paths). -/
structure PortAPIError where
  status_code : Nat
deriving Repr, DecidableEq

/-- The `"404" in str(e)` test: the error message always starts with the
status code, so the test is modelled as the status being 404. -/
def err404 (e : PortAPIError) : Bool := e.status_code == 404

/-- `_make_request` raises `PortAPIConflictError` exactly when the response
status is 409, `PortAPIError` otherwise. -/
def errConflict (e : PortAPIError) : Bool := e.status_code == 409

/- ### api/endpoints/blueprints.py -/

/-- `BlueprintClient.get_blueprint`: on success, the `"blueprint"` field of
the response (`response.get("blueprint")`); a 404 API error is converted to
`none`; any other error propagates.  `resp` is the outcome of the
underlying `_make_request` GET call, supplied as an oracle. -/
def get_blueprint (resp : Except PortAPIError Json) : Except PortAPIError (Option Json) :=
  match resp with
  | .ok r => .ok (objGet r "blueprint")
  | .error e => if err404 e then .ok none else .error e

/-- `top_level_keys_to_remove` in `BlueprintClient._prepare_update_payload`. -/
def top_level_keys_to_remove : List String :=
  ["createdAt", "updatedAt", "createdBy", "updatedBy"]

/-- `schema_properties_to_remove` in `BlueprintClient._prepare_update_payload`. -/
def schema_properties_to_remove : List String :=
  ["createdAt", "updatedAt", "createdBy", "updatedBy", "resolvedAt", "statusChangedAt"]

/-- `BlueprintClient._prepare_update_payload`: pop the four server-managed
top-level keys, then, when a `schema` with a `properties` entry is present,
delete the reserved property names from `schema.properties`.  Only the
dict-shaped case of `schema` / `properties` is modelled (the code tests
membership with `in`, which assumes dicts here). -/
def prepare_update_payload (blueprint_data : Json) : Json :=
  let p := popKeys blueprint_data top_level_keys_to_remove
  match objGet p "schema" with
  | some s =>
    match objGet s "properties" with
    | some props =>
      setKey p "schema" (setKey s "properties" (popKeys props schema_properties_to_remove))
    | none => p
  | none => p

/- ### core/services.py: BlueprintService -/

/-- `exclude_paths` of `BlueprintService.compare_blueprints` (and of
`BlueprintComparator.compare` in comparator.py): the four top-level
server-managed keys, and nothing else. -/
def blueprint_exclude_keys : List String :=
  ["createdAt", "updatedAt", "createdBy", "updatedBy"]

/-- `BlueprintService.compare_blueprints`: `DeepDiff(remote, local,
ignore_order=True, exclude_paths=...)`, returning `None` when the diff is
empty.  The diff object is abstracted to the excluded-key-stripped pair and
its emptiness to `jsonEquiv`; the additional `None` the source returns when
the formatted diff drops every dict-level category is not distinguished
(all uses below are on dict-level differences or on equivalent values). -/
def compare_blueprints (local_blueprint remote_blueprint : Json) : Option (Json × Json) :=
  let r := popKeys remote_blueprint blueprint_exclude_keys
  let l := popKeys local_blueprint blueprint_exclude_keys
  if jsonEquiv r l then none else some (r, l)

/-- `BlueprintService.check_recent_update`.  The ISO-8601 `updatedAt`
string is abstracted to epoch seconds: a present, parseable timestamp is a
`Json.num`; an absent or falsy value makes the code return True (safe to
update) before any parsing.  `now` is `datetime.now(timezone.utc)` in the
same epoch seconds. -/
def check_recent_update (blueprint_metadata : Json) (force_update : Bool) (now : Int) : Bool :=
  if force_update then true
  else
    match objGet blueprint_metadata "updatedAt" with
    | some (.num t) => if now - t < 86400 then false else true
    | _ => true

/-- Modelled from the spec: `is_within_protection_window(remote_metadata,
now, window_seconds)` of spec section 4.2 — true iff
`now - last_updated < window_seconds`, and false when the timestamp is
absent (the object is treated as not recently modified).  This is the
spec-side definition, kept to compare against `check_recent_update`. -/
def is_within_protection_window (remote_metadata : Json) (now window_seconds : Int) : Bool :=
  match objGet remote_metadata "updatedAt" with
  | some (.num t) => decide (now - t < window_seconds)
  | _ => false

/-- A gateway write performed by the blueprint service, with the payload
that `BlueprintClient` actually sends. -/
inductive BPCall where
  | update (payload : Json)
  | create (payload : Json)
deriving Repr

/-- The distinct exit paths of `process_blueprint_file`, one per return
point of the source (each with its own log message). -/
inductive BPOutcome where
  | fileError
  | configError
  | fetchApiError
  | unexpectedError
  | upToDate
  | cancelledByUser
  | updated
  | updateFailed404
  | updateFailedOther
  | created
  | createConflict
  | createFailed404
  | createFailedOther
deriving Repr, DecidableEq

/-- Result of one blueprint reconciliation: the boolean the source
returns, the exit path taken, and the trace of gateway writes. -/
structure BPResult where
  success : Bool
  outcome : BPOutcome
  calls : List BPCall
deriving Repr

/-- Oracle inputs of one `process_blueprint_file` run: the file-load
outcome, the gateway responses (used only if the corresponding request is
reached), the current time, and the interactive answer. -/
structure BlueprintEnv where
  loadResult : Option Json
  getResp : Except PortAPIError Json
  updateResp : Except PortAPIError Json
  createResp : Except PortAPIError Json
  now : Int
  userConfirms : Bool

/-- The create path of `process_blueprint_file` (blueprint absent
remotely): `create_blueprint` with the raw local data; a conflict is
reported as a race, a 404 as a missing related entity, anything else as a
generic failure. -/
def bp_create_branch (env : BlueprintEnv) (local_blueprint_data : Json) : BPResult :=
  match env.createResp with
  | .ok _ => ⟨true, .created, [.create local_blueprint_data]⟩
  | .error e =>
    if errConflict e then ⟨false, .createConflict, [.create local_blueprint_data]⟩
    else if err404 e then ⟨false, .createFailed404, [.create local_blueprint_data]⟩
    else ⟨false, .createFailedOther, [.create local_blueprint_data]⟩

/-- The update request of `process_blueprint_file`: `update_blueprint`
sends `prepare_update_payload` of the local data; a 404 failure is
reported as a missing related entity and the run fails — there is no
fallback to create. -/
def bp_do_update (env : BlueprintEnv) (payload : Json) : BPResult :=
  match env.updateResp with
  | .ok _ => ⟨true, .updated, [.update payload]⟩
  | .error e =>
    if err404 e then ⟨false, .updateFailed404, [.update payload]⟩
    else ⟨false, .updateFailedOther, [.update payload]⟩

/-- The update path of `process_blueprint_file` (blueprint present
remotely).  The source indexes `remote_blueprint["blueprint"]` for the
comparison; a missing key raises and lands in the outer
`except Exception` handler. -/
def bp_update_branch (env : BlueprintEnv) (force_update skip_confirmation : Bool)
    (local_blueprint_data remote_blueprint : Json) : BPResult :=
  match objGet remote_blueprint "blueprint" with
  | none => ⟨false, .unexpectedError, []⟩
  | some remote_inner =>
    match compare_blueprints local_blueprint_data remote_inner with
    | none => ⟨true, .upToDate, []⟩
    | some _ =>
      if !(check_recent_update remote_blueprint force_update env.now) && !skip_confirmation then
        if env.userConfirms then
          bp_do_update env (prepare_update_payload local_blueprint_data)
        else ⟨true, .cancelledByUser, []⟩
      else bp_do_update env (prepare_update_payload local_blueprint_data)

/-- `BlueprintService.process_blueprint_file` (core/services.py).  Note the
signature: the flags are `force_update` and `skip_confirmation`; there is
no dry-run parameter.  A fetch error whose message carries 404 leaves
`remote_blueprint = None` and falls through to the create path; any other
fetch error fails the declaration. -/
def process_blueprint_file (env : BlueprintEnv) (force_update skip_confirmation : Bool) : BPResult :=
  match env.loadResult with
  | none => ⟨false, .fileError, []⟩
  | some local_blueprint_data =>
    if truthy local_blueprint_data = false then ⟨false, .fileError, []⟩
    else if truthyOpt (objGet local_blueprint_data "identifier") = false then
      ⟨false, .configError, []⟩
    else
      match get_blueprint env.getResp with
      | .error e =>
        if err404 e then bp_create_branch env local_blueprint_data
        else ⟨false, .fetchApiError, []⟩
      | .ok remoteOpt =>
        match remoteOpt with
        | some remote_blueprint =>
          if truthy remote_blueprint then
            bp_update_branch env force_update skip_confirmation local_blueprint_data remote_blueprint
          else bp_create_branch env local_blueprint_data
        | none => bp_create_branch env local_blueprint_data

/- ### core/mappings_service.py: MappingService -/

/-- Status strings returned by `process_mapping_file`. -/
inductive MapStatus where
  | file_error
  | config_error
  | api_error
  | no_changes
  | dry_run
  | confirmation_required
  | updated
deriving Repr, DecidableEq

/-- A gateway write performed by the mapping service
(`update_integration_config` is its only write). -/
inductive MapCall where
  | updateConfig (config : Json)
deriving Repr

/-- Result of one mapping reconciliation: the returned triple plus the
trace of gateway writes. -/
structure MapResult where
  success : Bool
  status : MapStatus
  change_data : Option (Json × Json)
  calls : List MapCall
deriving Repr

/-- Oracle inputs of one `process_mapping_file` run.  `getResp` is the
outcome of `get_integration`, which issues `_make_request` with
`ignore_404=True`: a 404 arrives as `.ok none`. -/
structure MappingEnv where
  loadResult : Option Json
  getResp : Except PortAPIError (Option Json)
  updateResp : Except PortAPIError Json

/-- `desired = remote.copy(); desired.update(local)` on dict bindings:
keys of `remote` keep their position and take the local value when
present, and local-only keys are appended in their order. -/
def updateKvs (base upd : List (String × Json)) : List (String × Json) :=
  base.map (fun kv =>
    match upd.find? (fun kw => kw.1 == kv.1) with
    | some kw => (kv.1, kw.2)
    | none => kv)
  ++ upd.filter (fun kw => (base.find? (fun kv => kv.1 == kw.1)).isNone)

/-- Lines 82-85 of mappings_service.py: build the desired state by
updating the remote config with the local file, then pop the local
metadata key `integrationIdentifier`. -/
def desired_config (remote_config local_config : Json) : Json :=
  popKey (.obj (updateKvs (objKvs remote_config) (objKvs local_config))) "integrationIdentifier"

/-- `MappingService.apply_mapping_update`: one PATCH; any API error is
reported as `api_error` (422 gets a more specific log line but the same
return value). -/
def apply_mapping_update (env : MappingEnv) (config : Json) : MapResult :=
  match env.updateResp with
  | .ok _ => ⟨true, .updated, none, [.updateConfig config]⟩
  | .error _ => ⟨false, .api_error, none, [.updateConfig config]⟩

/-- `MappingService.process_mapping_file`.  A not-found integration
(falsy `get_integration` result) is reported as `api_error`: the mapping
service has no create path. -/
def process_mapping_file (env : MappingEnv) (dry_run force : Bool) : MapResult :=
  match env.loadResult with
  | none => ⟨false, .file_error, none, []⟩
  | some local_config =>
    if truthy local_config = false then ⟨false, .file_error, none, []⟩
    else
      let integration_id := objGet local_config "integrationIdentifier"
      if truthyOpt integration_id = false then ⟨false, .config_error, none, []⟩
      else
        match env.getResp with
        | .error _ => ⟨false, .api_error, none, []⟩
        | .ok remoteOpt =>
          if truthyOpt remoteOpt = false then ⟨false, .api_error, none, []⟩
          else
            let remote_integration := remoteOpt.getD .null
            let remote_config :=
              objGetD (objGetD remote_integration "integration" (.obj [])) "config" (.obj [])
            let desired := desired_config remote_config local_config
            if jsonEquiv remote_config desired then ⟨true, .no_changes, none, []⟩
            else if dry_run then ⟨true, .dry_run, none, []⟩
            else if force = false then
              ⟨true, .confirmation_required, some (integration_id.getD .null, desired), []⟩
            else apply_mapping_update env desired

/- ### core/scorecards_service.py: ScorecardService -/

/-- Status strings returned by `process_scorecard_file`. -/
inductive ScStatus where
  | file_error
  | config_error
  | validation_error
  | api_error
  | no_changes
  | dry_run
  | confirmation_required
  | updated
  | created
deriving Repr, DecidableEq

/-- The action recorded in `change_data`. -/
inductive ScAction where
  | update
  | create
deriving Repr, DecidableEq

/-- A gateway write performed by the scorecard service. -/
inductive ScCall where
  | updateScorecard (payload : Json)
  | createScorecard (payload : Json)
deriving Repr

/-- The `change_data` dict handed back for deferred application. -/
structure ScChange where
  blueprint_id : Json
  scorecard_id : Json
  payload : Json
  action : ScAction
deriving Repr

/-- Result of one scorecard reconciliation. -/
structure ScResult where
  success : Bool
  status : ScStatus
  change_data : Option ScChange
  calls : List ScCall
deriving Repr

/-- Oracle inputs of one `process_scorecard_file` run.  `blueprintResp`
feeds the `get_blueprint` call inside the property validation;
`getScorecardResp` is the `ignore_404` fetch of the scorecard. -/
structure ScorecardEnv where
  loadResult : Option Json
  blueprintResp : Except PortAPIError Json
  getScorecardResp : Except PortAPIError (Option Json)
  updateResp : Except PortAPIError Json
  createResp : Except PortAPIError Json

/-- One rule condition check in `_validate_scorecard_properties`: a
truthy `property` name not starting with the `$` sentinel must be a
blueprint schema property. -/
def condition_ok (props : List String) (condition : Json) : Bool :=
  match objGet condition "property" with
  | some (.str p) =>
    if p != "" && !(p.startsWith "$") && !(props.contains p) then false else true
  | _ => true

/-- All conditions of one rule pass. -/
def rule_ok (props : List String) (rule : Json) : Bool :=
  (asArr (objGetD (objGetD rule "query" (.obj [])) "conditions" (.arr []))).all
    (condition_ok props)

/-- `ScorecardService._validate_scorecard_properties`: fetch the target
blueprint (falsy wrapper fails validation), collect its schema property
names, and check every rule condition; an API error also fails
validation. -/
def validate_scorecard_properties (blueprintResp : Except PortAPIError Json)
    (scorecard : Json) : Bool :=
  match get_blueprint blueprintResp with
  | .error _ => false
  | .ok w =>
    if truthyOpt w = false then false
    else
      let wrapper := w.getD .null
      let props := keysOf (objGetD (objGetD (objGetD wrapper "blueprint" (.obj []))
        "schema" (.obj [])) "properties" (.obj []))
      (asArr (objGetD scorecard "rules" (.arr []))).all (rule_ok props)

/-- The comprehension `{key: remote.get(key) for key in local.keys()}`. -/
def normalized_remote_scorecard (remote_sc local_sc : Json) : Json :=
  .obj ((objKvs local_sc).map (fun kv => (kv.1, objGetD remote_sc kv.1 .null)))

/-- `ScorecardService.apply_scorecard_change`: one PUT or POST depending
on the recorded action; any API error is reported as `api_error`. -/
def apply_scorecard_change (env : ScorecardEnv) (change : ScChange) : ScResult :=
  match change.action with
  | .update =>
    match env.updateResp with
    | .ok _ => ⟨true, .updated, none, [.updateScorecard change.payload]⟩
    | .error _ => ⟨false, .api_error, none, [.updateScorecard change.payload]⟩
  | .create =>
    match env.createResp with
    | .ok _ => ⟨true, .created, none, [.createScorecard change.payload]⟩
    | .error _ => ⟨false, .api_error, none, [.createScorecard change.payload]⟩

/-- `ScorecardService.process_scorecard_file`.  An absent remote scorecard
selects the create logic; in both branches the dry-run check precedes the
force check, which precedes the write. -/
def process_scorecard_file (env : ScorecardEnv) (dry_run force : Bool) : ScResult :=
  match env.loadResult with
  | none => ⟨false, .file_error, none, []⟩
  | some wrapper =>
    if truthy wrapper = false then ⟨false, .file_error, none, []⟩
    else
      let blueprint_id := objGet wrapper "blueprintIdentifier"
      let local_scorecard_opt := objGet wrapper "scorecard"
      if truthyOpt blueprint_id = false ∨ truthyOpt local_scorecard_opt = false then
        ⟨false, .config_error, none, []⟩
      else
        let local_scorecard := local_scorecard_opt.getD .null
        let scorecard_id := objGet local_scorecard "identifier"
        if truthyOpt scorecard_id = false then ⟨false, .config_error, none, []⟩
        else if validate_scorecard_properties env.blueprintResp local_scorecard = false then
          ⟨false, .validation_error, none, []⟩
        else
          match env.getScorecardResp with
          | .error _ => ⟨false, .api_error, none, []⟩
          | .ok rwOpt =>
            let remote_scorecard : Option Json :=
              if truthyOpt rwOpt then objGet (rwOpt.getD .null) "scorecard" else none
            if truthyOpt remote_scorecard then
              let remote_sc := remote_scorecard.getD .null
              let normalized := normalized_remote_scorecard remote_sc local_scorecard
              if jsonEquiv normalized local_scorecard then ⟨true, .no_changes, none, []⟩
              else
                let change : ScChange :=
                  ⟨blueprint_id.getD .null, scorecard_id.getD .null, local_scorecard, .update⟩
                if dry_run then ⟨true, .dry_run, none, []⟩
                else if force = false then ⟨true, .confirmation_required, some change, []⟩
                else apply_scorecard_change env change
            else
              let change : ScChange :=
                ⟨blueprint_id.getD .null, scorecard_id.getD .null, local_scorecard, .create⟩
              if dry_run then ⟨true, .dry_run, none, []⟩
              else if force = false then ⟨true, .confirmation_required, some change, []⟩
              else apply_scorecard_change env change

/- ### utils.py: sanitize_diff -/

/-- A value stored under a path in the `values_changed` section of a
DeepDiff dict: a Python set, a list, or any other value (such as the usual
old/new-value dict). -/
inductive DiffVal where
  | vset (xs : List Json)
  | vlist (xs : List Json)
  | vother (j : Json)
deriving Repr

/-- The body of the `sanitize_diff` loop: a set becomes a list, any other
value is untouched. -/
def sanitizeVal : DiffVal → DiffVal
  | .vset xs => .vlist xs
  | v => v

/-- A DeepDiff result dict as `sanitize_diff` sees it: the
`values_changed` section when present, and the remaining sections, which
the function never touches. -/
structure DeepDiffObj where
  values_changed : Option (List (String × DiffVal))
  rest : List (String × List (String × DiffVal))
deriving Repr

/-- `sanitize_diff` (utils.py): when the diff has a `values_changed`
section, convert every set value in it to a list; everything else is
returned unchanged. -/
def sanitize_diff (diff : DeepDiffObj) : DeepDiffObj :=
  match diff.values_changed with
  | none => diff
  | some entries =>
    { diff with values_changed := some (entries.map (fun kv => (kv.1, sanitizeVal kv.2))) }

/- ### Call-shape predicates and concrete runs used below -/

/-- Whether a blueprint gateway write is a create. -/
def isCreateCall : BPCall → Bool
  | .create _ => true
  | .update _ => false

/-- Whether a scorecard gateway write is an update. -/
def isScUpdateCall : ScCall → Bool
  | .updateScorecard _ => true
  | .createScorecard _ => false

/-- A local blueprint whose update will fail with 404. -/
def c3_local : Json := .obj [("identifier", .str "svc"), ("title", .str "B")]

/-- The matching remote blueprint (differs in `title`). -/
def c3_remote_wrapper : Json :=
  .obj [("blueprint", .obj [("identifier", .str "svc"), ("title", .str "A")]),
    ("updatedAt", .num 0)]

/-- Run: remote present, non-empty diff, the update PUT answers 404. -/
def c3_env : BlueprintEnv :=
  ⟨some c3_local, .ok (.obj [("blueprint", c3_remote_wrapper)]),
    .error ⟨404⟩, .ok .null, 1000000, true⟩

/-- A local blueprint with a non-empty diff against its remote. -/
def c4_local : Json := .obj [("identifier", .str "svc"), ("title", .str "B")]

/-- Run: remote present and differing, all gateway calls succeed. -/
def c4_env : BlueprintEnv :=
  ⟨some c4_local,
    .ok (.obj [("blueprint",
      .obj [("blueprint", .obj [("identifier", .str "svc"), ("title", .str "A")]),
        ("updatedAt", .num 0)])]),
    .ok .null, .ok .null, 1000000, true⟩

/-- Run: the integration fetch reports not-found (`ignore_404` gives None). -/
def c5_mapping_env : MappingEnv :=
  ⟨some (.obj [("integrationIdentifier", .str "i1")]), .ok none, .ok .null⟩

/-- A local blueprint that does not exist remotely. -/
def c5_blueprint_local : Json := .obj [("identifier", .str "new-bp"), ("title", .str "T")]

/-- Run: the blueprint fetch answers 404 and the create succeeds. -/
def c5_blueprint_env : BlueprintEnv :=
  ⟨some c5_blueprint_local, .error ⟨404⟩, .ok .null, .ok .null, 0, true⟩

/-- A local scorecard with no rules (validation passes trivially). -/
def c5_scorecard_sc : Json := .obj [("identifier", .str "q"), ("rules", .arr [])]

/-- Its file wrapper. -/
def c5_scorecard_wrapper : Json :=
  .obj [("blueprintIdentifier", .str "svc"), ("scorecard", c5_scorecard_sc)]

/-- Run: the blueprint validation fetch succeeds, the scorecard fetch
reports not-found, and the create succeeds. -/
def c5_scorecard_env : ScorecardEnv :=
  ⟨some c5_scorecard_wrapper,
    .ok (.obj [("blueprint", .obj [("blueprint",
      .obj [("schema", .obj [("properties", .obj [])])])])]),
    .ok none, .ok .null, .ok .null⟩

/-- A local blueprint equal to its remote except for an excluded key. -/
def c6_local : Json := .obj [("identifier", .str "svc"), ("title", .str "A")]

/-- The matching remote wrapper: the inner blueprint carries an extra
`createdAt`, which the comparison excludes. -/
def c6_wrapper : Json :=
  .obj [("blueprint",
    .obj [("identifier", .str "svc"), ("title", .str "A"), ("createdAt", .str "x")]),
    ("updatedAt", .num 0)]

/-- Run: remote present and equal to the local file after exclusions. -/
def c6_env : BlueprintEnv :=
  ⟨some c6_local, .ok (.obj [("blueprint", c6_wrapper)]), .ok .null, .ok .null, 0, true⟩

/-- The end-to-end payload of spec section 8: a declaration whose schema
declares a reserved `createdAt` property. -/
def c7_bd : Json :=
  .obj [("identifier", .str "service"), ("createdAt", .str "2024"),
    ("schema", .obj [("properties",
      .obj [("name", .obj [("type", .str "string")]), ("createdAt", .obj [])])])]

/-- The schema of the prepared payload for `c7_bd`. -/
def c7_schema_out : Json :=
  .obj [("properties", .obj [("name", .obj [("type", .str "string")])])]

/-- The properties of the prepared payload for `c7_bd`. -/
def c7_props_out : Json := .obj [("name", .obj [("type", .str "string")])]

/-- A local blueprint that does not exist remotely. -/
def c8_local : Json := .obj [("identifier", .str "svc"), ("title", .str "B")]

/-- Run: the fetch answers 404 and the create answers 409 (conflict). -/
def c8_env : BlueprintEnv :=
  ⟨some c8_local, .error ⟨404⟩, .ok .null, .error ⟨409⟩, 0, true⟩

/-- A remote integration config with a remote-only key `keep`. -/
def c9_remote : Json := .obj [("keep", .num 7), ("x", .num 1)]

/-- A local mapping file that overrides `x` but never mentions `keep`. -/
def c9_local : Json := .obj [("integrationIdentifier", .str "i1"), ("x", .num 2)]

/- ### Helper lemmas -/

mutual

theorem beqJson_refl : (x : Json) → beqJson x x = true
  | .null => rfl
  | .bool b => by simp [beqJson]
  | .num n => by simp [beqJson]
  | .str s => by simp [beqJson]
  | .arr xs => by simp [beqJson, beqList_refl xs]
  | .obj kvs => by simp [beqJson, beqKvs_refl kvs]

theorem beqList_refl : (xs : List Json) → beqList xs xs = true
  | [] => rfl
  | x :: xs => by simp [beqList, beqJson_refl x, beqList_refl xs]

theorem beqKvs_refl : (kvs : List (String × Json)) → beqKvs kvs kvs = true
  | [] => rfl
  | kv :: kvs => by simp [beqKvs, beqJson_refl kv.2, beqKvs_refl kvs]

end

theorem jsonEquiv_refl (a : Json) : jsonEquiv a a = true :=
  beqJson_refl (normalize a)

theorem find?_filter_ne (kvs : List (String × Json)) (k : String) :
    (kvs.filter (fun kv => kv.1 != k)).find? (fun kv => kv.1 == k) = none := by
  induction kvs with
  | nil => rfl
  | cons kv kvs ih =>
    by_cases h : kv.1 = k
    · simp [List.filter_cons, h, ih]
    · simp [List.filter_cons, h, List.find?_cons, ih]

theorem find?_filter_of_ne (kvs : List (String × Json)) (a b : String) (h : a ≠ b) :
    (kvs.filter (fun kv => kv.1 != b)).find? (fun kv => kv.1 == a)
      = kvs.find? (fun kv => kv.1 == a) := by
  induction kvs with
  | nil => rfl
  | cons kv kvs ih =>
    by_cases hb : kv.1 = b
    · have hfb : (kv.1 != b) = false := by simp [hb]
      have ha : (kv.1 == a) = false := by
        rw [hb]
        exact beq_eq_false_iff_ne.mpr (fun hh => h hh.symm)
      simp [List.filter_cons, hfb, List.find?_cons, ha, ih]
    · have hfb : (kv.1 != b) = true := by simp [hb]
      cases hab : (kv.1 == a) with
      | true => simp [List.filter_cons, hfb, List.find?_cons, hab]
      | false => simp [List.filter_cons, hfb, List.find?_cons, hab, ih]

theorem objGet_popKey_self (j : Json) (k : String) : objGet (popKey j k) k = none := by
  cases j <;> simp [popKey, objGet, find?_filter_ne]

theorem objGet_popKey_ne (j : Json) (a b : String) (h : a ≠ b) :
    objGet (popKey j b) a = objGet j a := by
  cases j <;> simp [popKey, objGet, find?_filter_of_ne _ _ _ h]

theorem objGet_popKeys_of_not_mem (ks : List String) (j : Json) (k : String) (h : k ∉ ks) :
    objGet (popKeys j ks) k = objGet j k := by
  induction ks generalizing j with
  | nil => rfl
  | cons a ks ih =>
    have hne : k ≠ a := fun hh => h (hh ▸ List.mem_cons_self a ks)
    have hnm : k ∉ ks := fun hh => h (List.mem_cons_of_mem a hh)
    calc objGet (popKeys (popKey j a) ks) k = objGet (popKey j a) k := ih (popKey j a) hnm
      _ = objGet j k := objGet_popKey_ne j k a hne

theorem objGet_popKeys_of_mem (ks : List String) (j : Json) (k : String) (h : k ∈ ks) :
    objGet (popKeys j ks) k = none := by
  induction ks generalizing j with
  | nil => cases h
  | cons a ks ih =>
    by_cases hm : k ∈ ks
    · exact ih (popKey j a) hm
    · have hk : k = a := by
        rcases List.mem_cons.mp h with hh | hh
        · exact hh
        · exact absurd hh hm
      subst hk
      calc objGet (popKeys (popKey j k) ks) k = objGet (popKey j k) k :=
            objGet_popKeys_of_not_mem ks (popKey j k) k hm
        _ = none := objGet_popKey_self j k

theorem find?_setKey_list (kvs : List (String × Json)) (k : String) (v : Json) :
    (kvs.map (fun kv => if kv.1 == k then (kv.1, v) else kv)).find? (fun kv => kv.1 == k)
      = (kvs.find? (fun kv => kv.1 == k)).map (fun kv => (kv.1, v)) := by
  induction kvs with
  | nil => rfl
  | cons kv kvs ih =>
    rw [List.map_cons]
    cases hk : (kv.1 == k) with
    | true =>
      rw [show ((if true = true then (kv.1, v) else kv) : String × Json) = (kv.1, v) from rfl]
      rw [@List.find?_cons_of_pos _ (fun kv => kv.1 == k) (kv.1, v) _ hk,
        @List.find?_cons_of_pos _ (fun kv => kv.1 == k) kv kvs hk]
      rfl
    | false =>
      rw [show ((if false = true then (kv.1, v) else kv) : String × Json) = kv from rfl]
      rw [@List.find?_cons_of_neg _ (fun kv => kv.1 == k) kv _ (by simp [hk]),
        @List.find?_cons_of_neg _ (fun kv => kv.1 == k) kv kvs (by simp [hk]), ih]

theorem find?_setKey_list_ne (kvs : List (String × Json)) (a b : String) (v : Json)
    (h : a ≠ b) :
    (kvs.map (fun kv => if kv.1 == b then (kv.1, v) else kv)).find? (fun kv => kv.1 == a)
      = kvs.find? (fun kv => kv.1 == a) := by
  induction kvs with
  | nil => rfl
  | cons kv kvs ih =>
    rw [List.map_cons]
    cases hab : (kv.1 == b) with
    | true =>
      have ha : (kv.1 == a) = false := by
        rw [beq_iff_eq.mp hab]
        exact beq_eq_false_iff_ne.mpr (fun hh => h hh.symm)
      rw [show ((if true = true then (kv.1, v) else kv) : String × Json) = (kv.1, v) from rfl]
      rw [@List.find?_cons_of_neg _ (fun kv => kv.1 == a) (kv.1, v) _ (by simp [ha]),
        @List.find?_cons_of_neg _ (fun kv => kv.1 == a) kv kvs (by simp [ha]), ih]
    | false =>
      rw [show ((if false = true then (kv.1, v) else kv) : String × Json) = kv from rfl]
      cases ha : (kv.1 == a) with
      | true =>
        rw [@List.find?_cons_of_pos _ (fun kv => kv.1 == a) kv _ ha,
          @List.find?_cons_of_pos _ (fun kv => kv.1 == a) kv kvs ha]
      | false =>
        rw [@List.find?_cons_of_neg _ (fun kv => kv.1 == a) kv _ (by simp [ha]),
          @List.find?_cons_of_neg _ (fun kv => kv.1 == a) kv kvs (by simp [ha]), ih]

theorem objGet_setKey_self (j : Json) (k : String) (v w : Json) (h : objGet j k = some w) :
    objGet (setKey j k v) k = some v := by
  cases j with
  | obj kvs =>
    simp only [objGet, setKey] at h ⊢
    rw [find?_setKey_list]
    cases hf : kvs.find? (fun kv => kv.1 == k) with
    | none => rw [hf] at h; simp at h
    | some u => simp
  | null => simp [objGet] at h
  | bool b => simp [objGet] at h
  | num n => simp [objGet] at h
  | str s => simp [objGet] at h
  | arr xs => simp [objGet] at h

theorem objGet_setKey_ne (j : Json) (a b : String) (v : Json) (h : a ≠ b) :
    objGet (setKey j b v) a = objGet j a := by
  cases j with
  | obj kvs => simp only [objGet, setKey]; rw [find?_setKey_list_ne kvs a b v h]
  | null => rfl
  | bool b => rfl
  | num n => rfl
  | str s => rfl
  | arr xs => rfl

theorem truthyOpt_some (j : Json) : truthyOpt (some j) = truthy j := rfl

theorem truthyOpt_none : truthyOpt none = false := rfl

theorem find?_filter_none (l : List (String × Json)) (p q : (String × Json) → Bool)
    (h : l.find? p = none) : (l.filter q).find? p = none := by
  rw [List.find?_eq_none] at h ⊢
  intro x hx
  exact h x (List.mem_of_mem_filter hx)

theorem find?_updateKvs_map (base upd : List (String × Json)) (k : String)
    (hupd : upd.find? (fun kw => kw.1 == k) = none) :
    (base.map (fun kv =>
      match upd.find? (fun kw => kw.1 == kv.1) with
      | some kw => ((kv.1, kw.2) : String × Json)
      | none => kv)).find? (fun kv => kv.1 == k)
      = base.find? (fun kv => kv.1 == k) := by
  induction base with
  | nil => rfl
  | cons kv base ih =>
    simp only [List.map_cons]
    cases hud : upd.find? (fun kw => kw.1 == kv.1) with
    | some kw =>
      cases hk : (kv.1 == k) with
      | true =>
        rw [beq_iff_eq.mp hk] at hud
        rw [hupd] at hud
        exact absurd hud (by simp)
      | false =>
        rw [@List.find?_cons_of_neg _ (fun kv => kv.1 == k) (kv.1, kw.2) _ (by simp [hk]),
          @List.find?_cons_of_neg _ (fun kv => kv.1 == k) kv base (by simp [hk]), ih]
    | none =>
      cases hk : (kv.1 == k) with
      | true =>
        rw [@List.find?_cons_of_pos _ (fun kv => kv.1 == k) kv _ hk,
          @List.find?_cons_of_pos _ (fun kv => kv.1 == k) kv base hk]
      | false =>
        rw [@List.find?_cons_of_neg _ (fun kv => kv.1 == k) kv _ (by simp [hk]),
          @List.find?_cons_of_neg _ (fun kv => kv.1 == k) kv base (by simp [hk]), ih]

/- ### Claim C1 -/

/-- Claim C1 counterexample: for metadata without an `updatedAt` field,
`check_recent_update` with force disabled returns true, not the false the
claim asserts. -/
theorem c1_counterexample :
    ¬ (check_recent_update (Json.obj []) false 0 = false) := by decide

/-- Claim C1 (amended): `check_recent_update` with force disabled is the
negation of the spec recency predicate: it returns false iff the metadata
carries an `updatedAt` timestamp with `now - last_updated` strictly below
86400 seconds, and returns true when the timestamp is absent (safe to
update). -/
theorem c1_check_recent_update_negates_protection_window (md : Json) (now : Int) :
    check_recent_update md false now = !(is_within_protection_window md now 86400) := by
  unfold check_recent_update is_within_protection_window
  cases objGet md "updatedAt" with
  | none => rfl
  | some v =>
    cases v with
    | null => rfl
    | bool b => rfl
    | num t => by_cases h : now - t < 86400 <;> simp [h]
    | str s => rfl
    | arr xs => rfl
    | obj kvs => rfl

/- ### Claim C2 -/

/-- Claim C2 counterexample: two blueprints that differ only in the
reserved property name `resolvedAt` nested under `schema.properties`
produce a non-empty comparison — the nested reserved names are not
excluded from the diff. -/
theorem c2_counterexample :
    (compare_blueprints
      (Json.obj [("schema", .obj [("properties", .obj [("resolvedAt", .num 2)])])])
      (Json.obj [("schema", .obj [("properties", .obj [("resolvedAt", .num 1)])])])).isSome
      = true := by decide

/-- Claim C2 (amended): exclusion is absolute for the four top-level
server-managed keys only — any pair of blueprints that are identical after
dropping `createdAt`, `updatedAt`, `createdBy` and `updatedBy` compares
empty. -/
theorem c2_top_level_exclusion_absolute (remote local_bp : Json)
    (h : popKeys remote blueprint_exclude_keys = popKeys local_bp blueprint_exclude_keys) :
    compare_blueprints local_bp remote = none := by
  unfold compare_blueprints
  simp [h, jsonEquiv_refl]

/-- Claim C2 witness: a concrete pair differing only in `createdAt`. -/
theorem c2_witness :
    compare_blueprints (Json.obj [("identifier", .str "s"), ("createdAt", .str "b")])
      (Json.obj [("identifier", .str "s"), ("createdAt", .str "a")]) = none :=
  c2_top_level_exclusion_absolute
    (Json.obj [("identifier", .str "s"), ("createdAt", .str "a")])
    (Json.obj [("identifier", .str "s"), ("createdAt", .str "b")]) rfl

/- ### Claim C3 -/

/-- Claim C3 counterexample: a concrete run in which the remote blueprint
exists, the diff is non-empty and the update PUT fails with 404 — the run
fails and no create call is ever issued, contrary to the claimed fallback
to the create path. -/
theorem c3_counterexample :
    (process_blueprint_file c3_env true false).success = false
    ∧ (process_blueprint_file c3_env true false).outcome = .updateFailed404
    ∧ (process_blueprint_file c3_env true false).calls.any isCreateCall = false :=
  ⟨rfl, rfl, rfl⟩

/-- Claim C3 (amended): when the update call fails with a 404 error the
declaration fails outright (reported as a likely missing related entity);
the only gateway write of the run is the failed update — there is no
fallback to create. -/
theorem c3_update_404_fails_without_create_fallback (env : BlueprintEnv)
    (skip_confirmation : Bool) (lb w rb : Json) (d : Json × Json) (e : PortAPIError)
    (hload : env.loadResult = some lb) (hlb : truthy lb = true)
    (hid : truthyOpt (objGet lb "identifier") = true)
    (hget : get_blueprint env.getResp = .ok (some w)) (hw : truthy w = true)
    (hinner : objGet w "blueprint" = some rb)
    (hdiff : compare_blueprints lb rb = some d)
    (hupd : env.updateResp = .error e) (h404 : err404 e = true) :
    process_blueprint_file env true skip_confirmation
      = ⟨false, .updateFailed404, [.update (prepare_update_payload lb)]⟩ := by
  unfold process_blueprint_file
  simp [hload, hlb, hid, hget, hw, bp_update_branch, hinner, hdiff,
    check_recent_update, bp_do_update, hupd, h404]

/-- Claim C3 witness: the amended statement at the concrete run. -/
theorem c3_witness :
    process_blueprint_file c3_env true false
      = ⟨false, .updateFailed404, [.update (prepare_update_payload c3_local)]⟩ :=
  c3_update_404_fails_without_create_fallback c3_env false c3_local c3_remote_wrapper
    (.obj [("identifier", .str "svc"), ("title", .str "A")])
    (.obj [("identifier", .str "svc"), ("title", .str "A")], c3_local) ⟨404⟩
    rfl rfl rfl rfl rfl rfl rfl rfl rfl

/- ### Claim C4 -/

/-- Claim C4: with the dry_run flag set, mapping and scorecard processing
issue no gateway write in any environment and under either force flag.
The blueprint service has no dry-run parameter at all (its CLI caller
passes one anyway): without that flag, a forced run with a non-empty diff
does write, as the third conjunct shows on a concrete run. -/
theorem c4_dry_run_prevents_writes :
    (∀ (env : MappingEnv) (force : Bool), (process_mapping_file env true force).calls = [])
    ∧ (∀ (env : ScorecardEnv) (force : Bool), (process_scorecard_file env true force).calls = [])
    ∧ (process_blueprint_file c4_env true true).calls ≠ [] := by
  refine ⟨?_, ?_, ?_⟩
  · intro env force
    obtain ⟨lr, gr, ur⟩ := env
    cases lr with
    | none => rfl
    | some lc =>
      unfold process_mapping_file
      dsimp only
      repeat' split
      all_goals first | rfl | simp_all
  · intro env force
    obtain ⟨lr, br, gr, ur, cr⟩ := env
    cases lr with
    | none => rfl
    | some w =>
      unfold process_scorecard_file
      dsimp only
      repeat' split
      all_goals first | rfl | simp_all
  · have h : process_blueprint_file c4_env true true
        = ⟨true, .updated, [.update (prepare_update_payload c4_local)]⟩ := by rfl
    rw [h]
    simp

/- ### Claim C5 -/

/-- Claim C5 counterexample: a mapping declaration whose integration fetch
returns not-found is reported as a failed api_error with no write — the
outcome is neither create nor a non-error. -/
theorem c5_counterexample :
    process_mapping_file c5_mapping_env false false = ⟨false, .api_error, none, []⟩ :=
  rfl

/-- The create branch of the blueprint service always issues exactly the
create call with the raw local data. -/
theorem bp_create_branch_calls (env : BlueprintEnv) (lb : Json) :
    (bp_create_branch env lb).calls = [.create lb] := by
  unfold bp_create_branch
  cases env.createResp with
  | ok j => rfl
  | error e =>
    by_cases h9 : errConflict e = true
    · simp [h9]
    · by_cases h4 : err404 e = true
      · simp [h9, h4]
      · simp [h9, h4]

/-- Claim C5 (amended): a not-found fetch selects the create path for
blueprint declarations (the create call is issued immediately, never an
update) and for scorecard declarations (no update call in any mode; under
force without dry-run the only write is the create); for mapping
declarations a not-found integration is a terminal api_error failure with
no write — the mapping service has no create path. -/
theorem c5_not_found_outcomes :
    (∀ (env : BlueprintEnv) (force skipc : Bool) (lb : Json),
      env.loadResult = some lb → truthy lb = true →
      truthyOpt (objGet lb "identifier") = true →
      get_blueprint env.getResp = .ok none →
      (process_blueprint_file env force skipc).calls = [.create lb])
    ∧ (∀ (env : ScorecardEnv) (dry_run force : Bool) (w sc : Json),
      env.loadResult = some w → truthy w = true →
      truthyOpt (objGet w "blueprintIdentifier") = true →
      objGet w "scorecard" = some sc → truthy sc = true →
      truthyOpt (objGet sc "identifier") = true →
      validate_scorecard_properties env.blueprintResp sc = true →
      env.getScorecardResp = .ok none →
      (process_scorecard_file env dry_run force).calls.any isScUpdateCall = false
      ∧ (dry_run = false → force = true →
          (process_scorecard_file env dry_run force).calls = [.createScorecard sc]))
    ∧ (∀ (env : MappingEnv) (dry_run force : Bool) (lc : Json),
      env.loadResult = some lc → truthy lc = true →
      truthyOpt (objGet lc "integrationIdentifier") = true →
      env.getResp = .ok none →
      process_mapping_file env dry_run force = ⟨false, .api_error, none, []⟩) := by
  refine ⟨?_, ?_, ?_⟩
  · intro env force skipc lb hload hlb hid hget
    have h : process_blueprint_file env force skipc = bp_create_branch env lb := by
      unfold process_blueprint_file
      simp [hload, hlb, hid, hget]
    rw [h]
    exact bp_create_branch_calls env lb
  · intro env dry_run force w sc hload hw hbp hsc hsct hscid hval hget
    constructor
    · cases dry_run <;> cases force <;> cases hcr : env.createResp <;>
        (unfold process_scorecard_file
         simp [hload, hw, hbp, hsc, hsct, hscid, hval, hget, hcr, truthyOpt_some,
           truthyOpt_none, apply_scorecard_change, isScUpdateCall])
    · intro hdry hforce
      subst hdry
      subst hforce
      cases hcr : env.createResp <;>
        (unfold process_scorecard_file
         simp [hload, hw, hbp, hsc, hsct, hscid, hval, hget, hcr, truthyOpt_some,
           truthyOpt_none, apply_scorecard_change])
  · intro env dry_run force lc hload hlc hid hget
    unfold process_mapping_file
    simp [hload, hlc, hid, hget, truthyOpt_none]

/-- Claim C5 witness: the amended statement at concrete runs of all three
services. -/
theorem c5_witness :
    (process_blueprint_file c5_blueprint_env false false).calls = [.create c5_blueprint_local]
    ∧ (process_scorecard_file c5_scorecard_env false true).calls
        = [.createScorecard c5_scorecard_sc]
    ∧ process_mapping_file c5_mapping_env false false = ⟨false, .api_error, none, []⟩ :=
  ⟨c5_not_found_outcomes.1 c5_blueprint_env false false c5_blueprint_local rfl rfl rfl rfl,
    (c5_not_found_outcomes.2.1 c5_scorecard_env false true c5_scorecard_wrapper
      c5_scorecard_sc rfl rfl rfl rfl rfl rfl rfl rfl).2 rfl rfl,
    c5_not_found_outcomes.2.2 c5_mapping_env false false
      (.obj [("integrationIdentifier", .str "i1")]) rfl rfl rfl rfl⟩

/- ### Claim C6 -/

/-- Claim C6: when the fetch succeeds and the structural diff of the local
declaration against the fetched remote blueprint is empty after
exclusions, the run returns success with the no-change outcome and no
gateway write is issued. -/
theorem c6_empty_diff_no_change_no_writes (env : BlueprintEnv)
    (force_update skip_confirmation : Bool) (lb w rb : Json)
    (hload : env.loadResult = some lb) (hlb : truthy lb = true)
    (hid : truthyOpt (objGet lb "identifier") = true)
    (hget : get_blueprint env.getResp = .ok (some w)) (hw : truthy w = true)
    (hinner : objGet w "blueprint" = some rb)
    (hdiff : compare_blueprints lb rb = none) :
    process_blueprint_file env force_update skip_confirmation = ⟨true, .upToDate, []⟩ := by
  unfold process_blueprint_file
  simp [hload, hlb, hid, hget, hw, bp_update_branch, hinner, hdiff]

/-- Claim C6 witness: a local blueprint equal to its remote except in the
excluded `createdAt` key yields no-change and an empty call trace. -/
theorem c6_witness :
    process_blueprint_file c6_env false false = ⟨true, .upToDate, []⟩ :=
  c6_empty_diff_no_change_no_writes c6_env false false c6_local c6_wrapper
    (.obj [("identifier", .str "svc"), ("title", .str "A"), ("createdAt", .str "x")])
    rfl rfl rfl rfl rfl rfl rfl

/- ### Claim C7 -/

/-- Claim C7: the prepared update payload never carries the four
server-managed top-level keys, and whenever it carries a schema with
properties, the six reserved property names are absent from those
properties. -/
theorem c7_prepare_update_payload_strips_reserved (bd : Json) :
    (∀ k ∈ top_level_keys_to_remove, objGet (prepare_update_payload bd) k = none)
    ∧ (∀ s props, objGet (prepare_update_payload bd) "schema" = some s →
        objGet s "properties" = some props →
        ∀ k ∈ schema_properties_to_remove, objGet props k = none) := by
  constructor
  · intro k hk
    cases hsc : objGet (popKeys bd top_level_keys_to_remove) "schema" with
    | none =>
      have hpre : prepare_update_payload bd = popKeys bd top_level_keys_to_remove := by
        simp only [prepare_update_payload, hsc]
      rw [hpre]
      exact objGet_popKeys_of_mem _ _ _ hk
    | some s0 =>
      cases hpc : objGet s0 "properties" with
      | none =>
        have hpre : prepare_update_payload bd = popKeys bd top_level_keys_to_remove := by
          simp only [prepare_update_payload, hsc, hpc]
        rw [hpre]
        exact objGet_popKeys_of_mem _ _ _ hk
      | some props0 =>
        have hpre : prepare_update_payload bd =
            setKey (popKeys bd top_level_keys_to_remove) "schema"
              (setKey s0 "properties" (popKeys props0 schema_properties_to_remove)) := by
          simp only [prepare_update_payload, hsc, hpc]
        have hkne : k ≠ "schema" := by
          simp only [top_level_keys_to_remove, List.mem_cons, List.not_mem_nil,
            or_false] at hk
          rcases hk with rfl | rfl | rfl | rfl <;> decide
        rw [hpre, objGet_setKey_ne _ _ _ _ hkne]
        exact objGet_popKeys_of_mem _ _ _ hk
  · intro s props hs hp k hk
    cases hsc : objGet (popKeys bd top_level_keys_to_remove) "schema" with
    | none =>
      have hpre : prepare_update_payload bd = popKeys bd top_level_keys_to_remove := by
        simp only [prepare_update_payload, hsc]
      rw [hpre, hsc] at hs
      exact absurd hs (by simp)
    | some s0 =>
      cases hpc : objGet s0 "properties" with
      | none =>
        have hpre : prepare_update_payload bd = popKeys bd top_level_keys_to_remove := by
          simp only [prepare_update_payload, hsc, hpc]
        rw [hpre, hsc] at hs
        have hss : s = s0 := by
          injection hs with h2
          exact h2.symm
        subst hss
        rw [hpc] at hp
        exact absurd hp (by simp)
      | some props0 =>
        have hpre : prepare_update_payload bd =
            setKey (popKeys bd top_level_keys_to_remove) "schema"
              (setKey s0 "properties" (popKeys props0 schema_properties_to_remove)) := by
          simp only [prepare_update_payload, hsc, hpc]
        rw [hpre, objGet_setKey_self _ _ _ _ hsc] at hs
        have hss : s = setKey s0 "properties" (popKeys props0 schema_properties_to_remove) := by
          injection hs with h2
          exact h2.symm
        subst hss
        rw [objGet_setKey_self _ _ _ _ hpc] at hp
        have hpp : props = popKeys props0 schema_properties_to_remove := by
          injection hp with h2
          exact h2.symm
        subst hpp
        exact objGet_popKeys_of_mem _ _ _ hk

/-- Claim C7 witness: the spec scenario — the prepared payload of `c7_bd`
drops the top-level `createdAt` and the reserved `createdAt` inside
`schema.properties`. -/
theorem c7_witness :
    objGet (prepare_update_payload c7_bd) "createdAt" = none
    ∧ objGet c7_props_out "createdAt" = none :=
  ⟨(c7_prepare_update_payload_strips_reserved c7_bd).1 "createdAt" (by decide),
    (c7_prepare_update_payload_strips_reserved c7_bd).2 c7_schema_out c7_props_out
      rfl rfl "createdAt" (by decide)⟩

/- ### Claim C8 -/

/-- Claim C8: a create answered with 409 is reported as the distinct
conflict outcome, the run is a terminal failure, and the trace holds
exactly one create call — no automatic retry. -/
theorem c8_create_conflict_terminal (env : BlueprintEnv) (force skipc : Bool)
    (lb : Json) (e : PortAPIError)
    (hload : env.loadResult = some lb) (hlb : truthy lb = true)
    (hid : truthyOpt (objGet lb "identifier") = true)
    (hget : get_blueprint env.getResp = .ok none)
    (hcr : env.createResp = .error e) (h409 : errConflict e = true) :
    process_blueprint_file env force skipc = ⟨false, .createConflict, [.create lb]⟩
    ∧ BPOutcome.createConflict ≠ BPOutcome.createFailedOther := by
  constructor
  · unfold process_blueprint_file
    simp [hload, hlb, hid, hget, bp_create_branch, hcr, h409]
  · simp

/-- Claim C8 witness: the statement at a concrete 409 run. -/
theorem c8_witness :
    process_blueprint_file c8_env false false = ⟨false, .createConflict, [.create c8_local]⟩
    ∧ BPOutcome.createConflict ≠ BPOutcome.createFailedOther :=
  c8_create_conflict_terminal c8_env false false c8_local ⟨409⟩ rfl rfl rfl rfl rfl rfl

/- ### Claim C9 -/

/-- Claim C9: in the desired mapping configuration, every top-level key
present in the remote config and absent from the local file keeps its
remote value — only `integrationIdentifier` is dropped, so a sync never
removes a remote-only configuration key. -/
theorem c9_mapping_merge_preserves_remote_only_keys
    (remote_config local_config : Json) (k : String) (v : Json)
    (hk : k ≠ "integrationIdentifier")
    (hr : objGet remote_config k = some v)
    (hl : objGet local_config k = none) :
    objGet (desired_config remote_config local_config) k = some v := by
  have hupd : (objKvs local_config).find? (fun kw => kw.1 == k) = none := by
    cases local_config with
    | obj kvs =>
      simp only [objGet] at hl
      simp only [objKvs]
      exact Option.map_eq_none'.mp hl
    | null => rfl
    | bool b => rfl
    | num n => rfl
    | str s => rfl
    | arr xs => rfl
  cases remote_config with
  | obj base =>
    unfold desired_config
    rw [objGet_popKey_ne _ _ _ hk]
    simp only [objGet, updateKvs]
    simp only [show objKvs (Json.obj base) = base from rfl]
    rw [List.find?_append, find?_updateKvs_map _ _ _ hupd]
    simp only [objGet] at hr
    cases hf : base.find? (fun kv => kv.1 == k) with
    | none => rw [hf] at hr; simp at hr
    | some u =>
      rw [hf] at hr
      simp only [Option.map] at hr
      have hv : u.2 = v := by injection hr
      simp [Option.or, hv]
  | null => simp [objGet] at hr
  | bool b => simp [objGet] at hr
  | num n => simp [objGet] at hr
  | str s => simp [objGet] at hr
  | arr xs => simp [objGet] at hr

/-- Claim C9 witness: the remote-only key `keep` survives the merge with
its remote value. -/
theorem c9_witness :
    objGet (desired_config c9_remote c9_local) "keep" = some (.num 7) :=
  c9_mapping_merge_preserves_remote_only_keys c9_remote c9_local "keep" (.num 7)
    (by decide) rfl rfl

/- ### Claim C10 -/

/-- Claim C10: `sanitize_diff` is idempotent — after one pass no set
values remain under `values_changed`, so a second pass is the identity on
the result. -/
theorem c10_sanitize_diff_idempotent (d : DeepDiffObj) :
    sanitize_diff (sanitize_diff d) = sanitize_diff d := by
  unfold sanitize_diff
  cases h : d.values_changed with
  | none => simp [h]
  | some entries =>
    simp only [h, List.map_map]
    have hcomp : ((fun kv : String × DiffVal => (kv.1, sanitizeVal kv.2))
          ∘ fun kv : String × DiffVal => (kv.1, sanitizeVal kv.2))
        = (fun kv : String × DiffVal => (kv.1, sanitizeVal kv.2)) := by
      funext kv
      cases hv : kv.2 <;> simp [Function.comp, sanitizeVal, hv]
    rw [hcomp]

end PortManager
